import Mathlib

/-!
Shallow embedding of the MailSafePro n8n node (src/unnamed/part_000) for
verification of its natural-language specification.

Modelling conventions:
* JavaScript numbers used for scores, progress values and rates are
  modelled as exact rationals (ℚ); integer counters and millisecond
  delays are modelled as Nat.
* JavaScript truthiness of an optional number (`x && y`, `x || d`) is
  modelled explicitly (a missing value and the value 0 are falsy).
* Timestamps (validated_at, checked_at, ...) are elided: they are pure
  clock reads that no claim depends on.
* The asynchronous HTTP layer is modelled by oracle functions passed as
  parameters (an attempt oracle for the retry loop, a poll oracle for
  the wait loop, a server oracle for single-shot calls); a result
  carries the number of HTTP calls performed and the recorded sleeps.
-/

-- ============================================================================
-- CONSTANTS (src/unnamed/part_000, lines 15-27)
-- ============================================================================

def MAX_SYNC_BATCH : Nat := 100
def MAX_ASYNC_BATCH : Nat := 10000
def DEFAULT_POLL_INTERVAL : Nat := 10
def DEFAULT_MAX_WAIT : Nat := 300
def MAX_RETRIES : Nat := 3
def RETRY_DELAY_BASE : Nat := 1000

def RISK_THRESHOLDS_LOW : ℚ := 3/10
def RISK_THRESHOLDS_MEDIUM : ℚ := 1/2
def RISK_THRESHOLDS_HIGH : ℚ := 7/10

def QUALITY_THRESHOLDS_EXCELLENT : ℚ := 8/10
def QUALITY_THRESHOLDS_GOOD : ℚ := 6/10
def QUALITY_THRESHOLDS_FAIR : ℚ := 4/10

-- ============================================================================
-- JS PRIMITIVES
-- ============================================================================

/-- Whitespace for the purposes of the regex class \s and String.trim
(ASCII part; the exotic Unicode spaces never occur in the claims). -/
def jsWhitespace (c : Char) : Bool :=
  c == ' ' || c == '\t' || c == '\n' || c == '\r' || c == '\x0b' || c == '\x0c'

/-- JavaScript String.prototype.trim on a character list. -/
def trimChars (l : List Char) : List Char :=
  ((l.dropWhile jsWhitespace).reverse.dropWhile jsWhitespace).reverse

/-- Trim and lowercase, the normalization `e.trim().toLowerCase()`. -/
def normalizeChars (l : List Char) : List Char :=
  (trimChars l).map Char.toLower

/-- Normalization of a single email parameter: `(s).trim().toLowerCase()`. -/
def normalizeEmail (s : String) : String :=
  String.mk (normalizeChars s.toList)

/-- Splitting a character list at every character satisfying p, keeping
empty fields, as JavaScript String.prototype.split does.  The accumulator
holds the current field reversed. -/
def splitChars (p : Char → Bool) : List Char → List Char → List (List Char)
  | [], acc => [acc.reverse]
  | c :: rest, acc =>
    if p c then acc.reverse :: splitChars p rest []
    else splitChars p rest (c :: acc)

/-- JavaScript `opt || default` on an optional string (both a missing value
and the empty string are falsy). -/
def jsOrString : Option String → String → String
  | none, d => d
  | some s, d => if s = "" then d else s

/-- JavaScript `opt || default` on an optional rational (a missing value and
0 are falsy). -/
def jsOrNum : Option ℚ → ℚ → ℚ
  | none, d => d
  | some q, d => if q = 0 then d else q

/-- JavaScript truthiness of an optional number. -/
def jsTruthyNum : Option ℚ → Bool
  | none => false
  | some q => decide (q ≠ 0)

/-- JavaScript Math.round: round half toward positive infinity. -/
def jsRound (q : ℚ) : ℤ := ⌊q + 1/2⌋

-- ============================================================================
-- EMAIL REGEX (EMAIL_REGEX = /^[^\s@]+@[^\s@]+\.[^\s@]+$/)
-- ============================================================================

/-- A character admissible in the classes of EMAIL_REGEX: not whitespace
and not the at sign. -/
def okChar (c : Char) : Bool := !jsWhitespace c && c != '@'

/-- True when the list contains a dot that is not its last element. -/
def dotNotLast : List Char → Bool
  | [] => false
  | [_] => false
  | c :: rest => c == '.' || dotNotLast rest

/-- True when the list has a dot at some position p with 1 ≤ p ≤ length-2,
which is exactly when the regex fragment [^\s@]+\.[^\s@]+ can match it
given all its characters are admissible. -/
def hasInteriorDot : List Char → Bool
  | [] => false
  | _ :: rest => dotNotLast rest

/-- EMAIL_REGEX.test(s): the string splits at a unique at sign into a
non-empty local part and a domain that contains an interior dot, all
characters being non-whitespace and non-at. -/
def emailRegexTest (s : String) : Bool :=
  match splitChars (fun c => c == '@') s.toList [] with
  | [lp, dom] =>
    !lp.isEmpty && lp.all okChar && !dom.isEmpty && dom.all okChar && hasInteriorDot dom
  | _ => false

-- ============================================================================
-- EMAIL PARSER (part_000 lines 64-74)
-- ============================================================================

/-- A separator character of the split regex /[,\n;\r\t]+/.  Splitting at
single characters instead of maximal runs only produces extra empty
candidates, which the length filter below removes, so the parse result is
identical. -/
def isSepChar (c : Char) : Bool :=
  c == ',' || c == '\n' || c == ';' || c == '\r' || c == '\t'

/-- parseEmails: split the input on separators, trim and lowercase every
candidate, and keep the non-empty ones passing EMAIL_REGEX. -/
def parseEmails (input : String) : List String :=
  ((splitChars isSepChar input.toList []).map (fun l => String.mk (normalizeChars l))).filter
    (fun e => e.length > 0 && emailRegexTest e)

/-- First-occurrence deduplication, the order-preserving semantics of
JavaScript [...new Set(emails)].  The second argument collects the
elements already seen. -/
def dedupeKeepFirst : List String → List String → List String
  | [], _ => []
  | e :: rest, seen =>
    if e ∈ seen then dedupeKeepFirst rest seen
    else e :: dedupeKeepFirst rest (e :: seen)

/-- deduplicateEmails: unique list plus the number of duplicates removed. -/
def deduplicateEmails (emails : List String) : List String × Nat :=
  let unique := dedupeKeepFirst emails []
  (unique, emails.length - unique.length)

-- ============================================================================
-- RESULT CLASSIFIER (part_000 lines 76-125)
-- ============================================================================

/-- ValidationResult as produced by the remote API (part_000 lines 33-39).
The optional scores model the optional number fields. -/
structure ValidationResult where
  email : String
  valid : Bool
  status : String
  risk_score : Option ℚ
  quality_score : Option ℚ
deriving DecidableEq, Repr

inductive RiskLevel | low | medium | high
deriving DecidableEq, Repr

inductive QualityTier | excellent | good | fair | poor
deriving DecidableEq, Repr

/-- calculateRiskLevel (part_000 lines 76-80). -/
def calculateRiskLevel (score : ℚ) : RiskLevel :=
  if score < RISK_THRESHOLDS_LOW then .low
  else if score < RISK_THRESHOLDS_HIGH then .medium
  else .high

/-- calculateQualityTier (part_000 lines 82-87). -/
def calculateQualityTier (score : ℚ) : QualityTier :=
  if score > QUALITY_THRESHOLDS_EXCELLENT then .excellent
  else if score > QUALITY_THRESHOLDS_GOOD then .good
  else if score > QUALITY_THRESHOLDS_FAIR then .fair
  else .poor

/-- getRecommendation (part_000 lines 89-100). -/
def getRecommendation (result : ValidationResult) : String :=
  let riskScore := result.risk_score.getD 0
  if result.valid = false then "❌ Do not send - Invalid email"
  else if result.status = "undeliverable" then "❌ Do not send - Undeliverable"
  else if RISK_THRESHOLDS_HIGH ≤ riskScore then "⚠️ High risk - Manual review required"
  else if RISK_THRESHOLDS_MEDIUM ≤ riskScore then "⚡ Medium risk - Consider verification"
  else if RISK_THRESHOLDS_LOW ≤ riskScore then "✓ Low risk - Safe with monitoring"
  else "✅ Safe to send"

/-- EnrichedResult (part_000 lines 49-58); the validated_at timestamp is
elided. -/
structure EnrichedResult where
  email : String
  valid : Bool
  status : String
  risk_score : Option ℚ
  quality_score : Option ℚ
  risk_level : RiskLevel
  quality_tier : QualityTier
  deliverability_status : String
  is_high_risk : Bool
  is_safe_to_send : Bool
  should_review : Bool
  recommendation : String
deriving DecidableEq, Repr

/-- enrichValidationResult (part_000 lines 102-125). -/
def enrichValidationResult (result : ValidationResult) : EnrichedResult :=
  let riskScore := result.risk_score.getD 0
  let qualityScore := result.quality_score.getD 0
  { email := result.email
    valid := result.valid
    status := result.status
    risk_score := result.risk_score
    quality_score := result.quality_score
    risk_level := calculateRiskLevel riskScore
    quality_tier := calculateQualityTier qualityScore
    deliverability_status :=
      if result.status = "deliverable" then "high"
      else if result.status = "risky" then "medium"
      else if result.status = "undeliverable" then "low"
      else "unknown"
    is_high_risk := decide (RISK_THRESHOLDS_HIGH ≤ riskScore)
    is_safe_to_send := result.valid && decide (riskScore < RISK_THRESHOLDS_MEDIUM)
    should_review :=
      decide (RISK_THRESHOLDS_LOW ≤ riskScore) && decide (riskScore < RISK_THRESHOLDS_HIGH)
    recommendation := getRecommendation result }

-- ============================================================================
-- BATCH STATISTICS AGGREGATOR (part_000 lines 150-180)
-- ============================================================================

/-- The full statistics object built on non-empty input. -/
structure FullStats where
  total : Nat
  deliverable : Nat
  undeliverable : Nat
  risky : Nat
  unknown : Nat
  safe_to_send : Nat
  needs_review : Nat
  high_risk : Nat
  deliverability_rate : ℚ
  risk_rate : ℚ
  quality_rate : ℚ
  avg_risk_score : ℚ
  avg_quality_score : ℚ
deriving DecidableEq, Repr

/-- Return shape of calculateBatchStatistics: on empty input the object
is exactly left-brace total: 0 right-brace with no further fields, otherwise the full
statistics object. -/
inductive BatchStatistics
  | emptyStats
  | stats (s : FullStats)
deriving DecidableEq, Repr

/-- Sum of the risk scores with a missing score treated as 0
(the reduce over r.risk_score ?? 0). -/
def sumRisk (results : List EnrichedResult) : ℚ :=
  (results.map (fun r => r.risk_score.getD 0)).sum

/-- Sum of the quality scores with a missing score treated as 0. -/
def sumQuality (results : List EnrichedResult) : ℚ :=
  (results.map (fun r => r.quality_score.getD 0)).sum

/-- calculateBatchStatistics (part_000 lines 150-180). -/
def calculateBatchStatistics (results : List EnrichedResult) : BatchStatistics :=
  let total := results.length
  if total = 0 then .emptyStats
  else
    let deliverable := (results.filter (fun r => r.status == "deliverable")).length
    let undeliverable := (results.filter (fun r => r.status == "undeliverable")).length
    let risky := (results.filter (fun r => r.status == "risky")).length
    let unknown := (results.filter (fun r => r.status == "unknown")).length
    let safeToSend := (results.filter (fun r => r.is_safe_to_send)).length
    let needsReview := (results.filter (fun r => r.should_review)).length
    let highRisk := (results.filter (fun r => r.is_high_risk)).length
    let avgRiskScore := sumRisk results / total
    let avgQualityScore := sumQuality results / total
    .stats
      { total := total
        deliverable := deliverable
        undeliverable := undeliverable
        risky := risky
        unknown := unknown
        safe_to_send := safeToSend
        needs_review := needsReview
        high_risk := highRisk
        deliverability_rate := ((jsRound ((deliverable : ℚ) / total * 100 * 100) : ℤ) : ℚ) / 100
        risk_rate := ((jsRound ((highRisk : ℚ) / total * 100 * 100) : ℤ) : ℚ) / 100
        quality_rate := ((jsRound ((safeToSend : ℚ) / total * 100 * 100) : ℤ) : ℚ) / 100
        avg_risk_score := ((jsRound (avgRiskScore * 100) : ℤ) : ℚ) / 100
        avg_quality_score := ((jsRound (avgQualityScore * 100) : ℤ) : ℚ) / 100 }

-- ============================================================================
-- COMPLETION-TIME ESTIMATION (part_000 lines 142-148)
-- ============================================================================

/-- The priority multiplier lookup priorityMultiplier[priority] || 1.0
(an unknown priority falls back to 1; the stored multipliers 1.5, 1.0,
0.6 are all truthy). -/
def priorityMultiplierOf (priority : String) : ℚ :=
  if priority = "low" then 3/2
  else if priority = "normal" then 1
  else if priority = "high" then 3/5
  else 1

/-- estimateCompletion (part_000 lines 142-148) reduced to the number of
seconds added to the current time; the final Date formatting is elided. -/
def estimateCompletionSeconds (emailCount : Nat) (priority : String) (checkSmtp : Bool) : ℤ :=
  let baseTimePerEmail : ℚ := if checkSmtp then 8 else 2
  let multiplier := priorityMultiplierOf priority
  max 30 ⌈(emailCount : ℚ) * baseTimePerEmail * multiplier⌉

-- ============================================================================
-- REMOTE CALL WRAPPER: RETRY LOOP (part_000 lines 692-713)
-- ============================================================================

/-- Structured HTTP error raised by the host request helper. -/
structure HttpErr where
  statusCode : Nat
  message : String
deriving DecidableEq, Repr

/-- Final state of the retry loop.  noResponse models the loop running
out of iterations without break or throw (the non-null assertion on
response would then read an undefined value; unreachable from retries = 0). -/
inductive RetryOutcome (α : Type)
  | ok (r : α)
  | err (e : HttpErr)
  | noResponse
deriving DecidableEq, Repr

/-- Observable behaviour of one wrapped call: its outcome, the number of
HTTP attempts performed, and the millisecond sleeps in order. -/
structure RetryResult (α : Type) where
  outcome : RetryOutcome α
  httpCalls : Nat
  sleeps : List Nat
deriving DecidableEq, Repr

/-- The while loop of the validate branch (part_000 lines 695-713); the
attempt oracle gives the result of the n-th HTTP call (0-based; the n-th
call happens with retries = n, since retries increments exactly once per
retried iteration). -/
def retryLoop {α : Type} (attempt : Nat → Except HttpErr α)
    (retries : Nat) (sleeps : List Nat) : RetryResult α :=
  if _h : retries < MAX_RETRIES then
    match attempt retries with
    | .ok r => ⟨.ok r, retries + 1, sleeps⟩
    | .error e =>
      if e.statusCode = 429 ∧ retries < MAX_RETRIES - 1 then
        retryLoop attempt (retries + 1) (sleeps ++ [RETRY_DELAY_BASE * 2 ^ (retries + 1)])
      else ⟨.err e, retries + 1, sleeps⟩
  else ⟨.noResponse, retries, sleeps⟩
termination_by MAX_RETRIES - retries
decreasing_by simp_wf; omega

/-- The retried remote call as entered from the validate branch. -/
def validateRetry {α : Type} (attempt : Nat → Except HttpErr α) : RetryResult α :=
  retryLoop attempt 0 []

-- ============================================================================
-- JOB STATUS RESPONSE AND WAIT LOOP (part_000 lines 41-47 and 964-1051)
-- ============================================================================

/-- BatchJobResponse (part_000 lines 41-47); the error field read by the
failure branch of the wait loop is an untyped IDataObject member in the
source and is modelled as an optional string. -/
structure BatchJobResponse where
  status : String
  total_emails : Option ℚ
  processed : Option ℚ
  progress : Option ℚ
  error : Option String
deriving DecidableEq, Repr

/-- Terminal outcome of the waitForCompletion branch. -/
inductive WaitOutcome
  | completedOk
  | failedErr (msg : String)
  | cancelledErr
  | timeoutErr (lastStatus : String) (maxWaitMs : Nat)
  | outOfFuel
deriving DecidableEq, Repr

/-- Observable behaviour of the wait loop: outcome, number of status
polls, number of sleeps. -/
structure WaitResult where
  outcome : WaitOutcome
  pollCount : Nat
  sleepCount : Nat
deriving DecidableEq, Repr

/-- The while loop of waitForCompletion (part_000 lines 983-1051) under an
idealized clock: polls are instantaneous and each sleep advances the
elapsed time by pollInterval milliseconds.  The poll oracle gives the
response of the n-th status poll (0-based).  Fuel bounds the recursion;
with pollInterval ≥ 1 the loop runs at most maxWait iterations, so the
entry point below never exhausts its fuel.  The result fetching inside the
completed branch does not influence the loop control flow and is elided. -/
def waitLoop (poll : Nat → BatchJobResponse) (maxWait pollInterval : Nat) :
    Nat → Nat → Nat → Nat → String → WaitResult
  | 0, _, pollCount, sleeps, _ => ⟨.outOfFuel, pollCount, sleeps⟩
  | fuel + 1, elapsed, pollCount, sleeps, last =>
    if elapsed < maxWait then
      let st := poll pollCount
      if st.status = "completed" then ⟨.completedOk, pollCount + 1, sleeps⟩
      else if st.status = "failed" then
        ⟨.failedErr ("Batch job failed: " ++ jsOrString st.error "Unknown error"),
          pollCount + 1, sleeps⟩
      else if st.status = "cancelled" then ⟨.cancelledErr, pollCount + 1, sleeps⟩
      else
        waitLoop poll maxWait pollInterval fuel (elapsed + pollInterval)
          (pollCount + 1) (sleeps + 1) st.status
    else ⟨.timeoutErr last maxWait, pollCount, sleeps⟩

/-- waitForCompletion entry: option defaulting (a missing or zero option
is falsy, so maxWait and pollInterval fall back to their defaults),
conversion of seconds to milliseconds, then the loop from elapsed 0. -/
def waitForCompletion (poll : Nat → BatchJobResponse)
    (maxWaitOpt pollIntervalOpt : Nat) : WaitResult :=
  let maxWait := (if maxWaitOpt = 0 then DEFAULT_MAX_WAIT else maxWaitOpt) * 1000
  let pollInterval := (if pollIntervalOpt = 0 then DEFAULT_POLL_INTERVAL else pollIntervalOpt) * 1000
  waitLoop poll maxWait pollInterval (maxWait + 1) 0 0 0 ""

-- ============================================================================
-- GET STATUS (part_000 lines 883-909)
-- ============================================================================

/-- The enriched status descriptor returned by getStatus; the checked_at
timestamp is elided. -/
structure StatusDescriptor where
  status : String
  progress_percent : ℚ
  is_completed : Bool
  is_failed : Bool
  is_processing : Bool
  is_cancelled : Bool
deriving DecidableEq, Repr

/-- The response enrichment of the getStatus branch (part_000 lines
896-908).  The ternary condition response.total_emails && response.processed
uses JavaScript truthiness, and the fallback is response.progress || 0. -/
def getStatusDescriptor (r : BatchJobResponse) : StatusDescriptor :=
  let progress : ℚ :=
    if jsTruthyNum r.total_emails && jsTruthyNum r.processed then
      ((jsRound (r.processed.getD 0 / r.total_emails.getD 0 * 100) : ℤ) : ℚ)
    else jsOrNum r.progress 0
  { status := r.status
    progress_percent := progress
    is_completed := r.status == "completed"
    is_failed := r.status == "failed"
    is_processing := r.status == "processing" || r.status == "pending"
    is_cancelled := r.status == "cancelled" }

-- ============================================================================
-- CREATE JOB (part_000 lines 822-878)
-- ============================================================================

/-- Control-flow outcome of the createJob branch up to the HTTP submission.
The two error constructors correspond to the NodeOperationError throws that
happen before the request; submitted records the email list sent as the
request body together with the locally computed response decorations. -/
inductive CreateJobOutcome
  | noEmailsError
  | tooManyError (count : Nat)
  | submitted (emails : List String) (total_submitted total_unique duplicates_removed : Nat)
deriving DecidableEq, Repr

/-- createJob branch (part_000 lines 822-878).  The deduplicate option is
kept as written: deduplication runs unless options.deduplicate is the
explicit value false (options.deduplicate !== false). -/
def createJob (emailsInput : String) (deduplicate : Option Bool) : CreateJobOutcome :=
  let parsedEmails := parseEmails emailsInput
  if parsedEmails.length = 0 then .noEmailsError
  else if MAX_ASYNC_BATCH < parsedEmails.length then .tooManyError parsedEmails.length
  else
    let dedup :=
      if deduplicate ≠ some false then deduplicateEmails parsedEmails
      else (parsedEmails, 0)
    .submitted dedup.1 parsedEmails.length dedup.1.length dedup.2

/-- Number of HTTP requests performed on each createJob control path: the
two errors are thrown before the request to POST /jobs is made. -/
def createJobHttpCalls : CreateJobOutcome → Nat
  | .submitted _ _ _ _ => 1
  | _ => 0

-- ============================================================================
-- QUICK CHECK AND VALIDATE SINGLE (part_000 lines 674-748)
-- ============================================================================

/-- The locally built record of the quickCheck branch for a syntactically
invalid email (part_000 lines 725-732); checked_at is elided. -/
structure QuickCheckLocalRecord where
  email : String
  valid : Bool
  status : String
  reason : String
  is_safe_to_send : Bool
deriving DecidableEq, Repr

/-- Outcome of the quickCheck branch: either the local invalid record
(no HTTP request) or the server response decorated with is_safe_to_send. -/
inductive QuickCheckOutcome
  | localInvalid (r : QuickCheckLocalRecord)
  | serverChecked (resp : ValidationResult) (is_safe_to_send : Bool)
deriving DecidableEq, Repr

/-- quickCheck branch (part_000 lines 721-748); the server oracle maps the
submitted email to the response of POST /validate/email. -/
def quickCheck (input : String) (server : String → ValidationResult) : QuickCheckOutcome :=
  let email := normalizeEmail input
  if emailRegexTest email = false then
    .localInvalid ⟨email, false, "invalid", "Invalid email format", false⟩
  else
    let response := server email
    .serverChecked response (response.valid == true)

/-- Number of HTTP requests performed on each quickCheck control path. -/
def quickCheckHttpCalls : QuickCheckOutcome → Nat
  | .localInvalid _ => 0
  | .serverChecked _ _ => 1

/-- Outcome of the validate branch: a thrown NodeOperationError for a
malformed email, a propagated HTTP error, or the enriched response. -/
inductive ValidateOutcome
  | invalidFormatError (email : String)
  | httpError (e : HttpErr)
  | enriched (r : EnrichedResult)
  | noResponse
deriving DecidableEq, Repr

/-- validate branch (part_000 lines 674-716): format check that throws on
failure, then the retried remote call, then enrichment. -/
def validateSingle (input : String)
    (attempt : Nat → Except HttpErr ValidationResult) : ValidateOutcome :=
  let email := normalizeEmail input
  if emailRegexTest email = false then .invalidFormatError email
  else
    match (validateRetry attempt).outcome with
    | .ok r => .enriched (enrichValidationResult r)
    | .err e => .httpError e
    | .noResponse => .noResponse

-- ============================================================================
-- CONCRETE FIXTURES FOR CLOSED INSTANCES
-- ============================================================================

/-- The character list of the email a@b.com. -/
def emailChunk : List Char := ['a', '@', 'b', '.', 'c', 'o', 'm']

/-- Character list of n copies of a@b.com joined by commas. -/
def manyEmailsChars : Nat → List Char
  | 0 => []
  | 1 => emailChunk
  | n + 2 => emailChunk ++ ',' :: manyEmailsChars (n + 1)

-- ============================================================================
-- HELPER LEMMAS
-- ============================================================================

theorem filter_replicate_of_pos {α : Type} (p : α → Bool) (a : α) (h : p a = true) :
    ∀ n, (List.replicate n a).filter p = List.replicate n a := by
  intro n
  induction n with
  | zero => rfl
  | succ m ih => simp [List.replicate_succ, List.filter_cons, h, ih]

theorem dedupeKeepFirst_length_le (l : List String) :
    ∀ seen, (dedupeKeepFirst l seen).length ≤ l.length := by
  induction l with
  | nil => intro seen; simp [dedupeKeepFirst]
  | cons e rest ih =>
    intro seen
    simp only [dedupeKeepFirst, List.length_cons]
    split
    · exact le_trans (ih seen) (Nat.le_succ _)
    · simpa using ih (e :: seen)

theorem splitChars_emailChunk_comma (rest : List Char) :
    splitChars isSepChar (emailChunk ++ ',' :: rest) [] =
      emailChunk :: splitChars isSepChar rest [] := rfl

theorem splitChars_manyEmails (n : Nat) :
    splitChars isSepChar (manyEmailsChars (n + 1)) [] = List.replicate (n + 1) emailChunk := by
  induction n with
  | zero => rfl
  | succ m ih =>
    show splitChars isSepChar (emailChunk ++ ',' :: manyEmailsChars (m + 1)) [] = _
    rw [splitChars_emailChunk_comma, ih]
    rfl

theorem parseEmails_manyEmails (n : Nat) :
    parseEmails (String.mk (manyEmailsChars (n + 1))) = List.replicate (n + 1) "a@b.com" := by
  unfold parseEmails
  rw [show (String.mk (manyEmailsChars (n + 1))).toList = manyEmailsChars (n + 1) from rfl,
    splitChars_manyEmails, List.map_replicate]
  rw [show String.mk (normalizeChars emailChunk) = "a@b.com" from rfl]
  exact filter_replicate_of_pos _ _ (by decide) _

theorem waitLoop_const_processing (poll : Nat → BatchJobResponse)
    (h : ∀ n, (poll n).status = "processing") (maxWait pollInterval : Nat) :
    ∀ (fuel elapsed pollCount sleeps : Nat) (last : String),
      waitLoop poll maxWait pollInterval fuel elapsed pollCount sleeps last =
        waitLoop (fun _ => ⟨"processing", none, none, none, none⟩) maxWait pollInterval fuel
          elapsed pollCount sleeps last := by
  intro fuel
  induction fuel with
  | zero => intro elapsed pc sl last; rfl
  | succ m ih =>
    intro elapsed pc sl last
    simp only [waitLoop, h]
    split
    · exact ih (elapsed + pollInterval) (pc + 1) (sl + 1) "processing"
    · rfl

-- ============================================================================
-- CLAIM THEOREMS
-- ============================================================================

/-- C7: for every score s, riskLevel(s) is low iff s < 0.3, high iff
s ≥ 0.7, and medium otherwise; in particular riskLevel(0.3) = medium and
riskLevel(0.7) = high. -/
theorem C7_riskLevel_boundaries (s : ℚ) :
    (calculateRiskLevel s = .low ↔ s < RISK_THRESHOLDS_LOW) ∧
    (calculateRiskLevel s = .high ↔ RISK_THRESHOLDS_HIGH ≤ s) ∧
    (calculateRiskLevel s = .medium ↔ RISK_THRESHOLDS_LOW ≤ s ∧ s < RISK_THRESHOLDS_HIGH) ∧
    calculateRiskLevel (3/10) = .medium ∧
    calculateRiskLevel (7/10) = .high := by
  have hlm : RISK_THRESHOLDS_LOW < RISK_THRESHOLDS_HIGH := by
    unfold RISK_THRESHOLDS_LOW RISK_THRESHOLDS_HIGH; norm_num
  refine ⟨?_, ?_, ?_,
    by norm_num [calculateRiskLevel, RISK_THRESHOLDS_LOW, RISK_THRESHOLDS_HIGH],
    by norm_num [calculateRiskLevel, RISK_THRESHOLDS_LOW, RISK_THRESHOLDS_HIGH]⟩ <;>
    (unfold calculateRiskLevel; split_ifs with h1 h2 <;> simp_all <;> linarith)

/-- C6: the batch statistics aggregator returns exactly the bare total-0
object on empty input; on n+1 identical deliverable, safe-to-send records
it reports a deliverability rate of 100.00 and a safe_to_send count of
n+1; and on every non-empty input the per-action counts are the counts of
the records with the corresponding boolean flag set, not a recomputation
from scores. -/
theorem C6_batchStatistics :
    calculateBatchStatistics [] = .emptyStats ∧
    (∀ (n : Nat) (r : EnrichedResult), r.status = "deliverable" → r.is_safe_to_send = true →
      ∃ fs : FullStats, calculateBatchStatistics (List.replicate (n + 1) r) = .stats fs ∧
        fs.deliverability_rate = 100 ∧ fs.safe_to_send = n + 1) ∧
    (∀ (results : List EnrichedResult) (fs : FullStats),
      calculateBatchStatistics results = .stats fs →
      fs.safe_to_send = (results.filter (fun r => r.is_safe_to_send)).length ∧
      fs.needs_review = (results.filter (fun r => r.should_review)).length ∧
      fs.high_risk = (results.filter (fun r => r.is_high_risk)).length) := by
  refine ⟨rfl, ?_, ?_⟩
  · intro n r h1 h2
    have hd : (List.replicate (n + 1) r).filter (fun x => x.status == "deliverable") =
        List.replicate (n + 1) r :=
      filter_replicate_of_pos _ _ (by simp [h1]) _
    have hs : (List.replicate (n + 1) r).filter (fun x => x.is_safe_to_send) =
        List.replicate (n + 1) r :=
      filter_replicate_of_pos _ _ (by simp [h2]) _
    have hlen : (List.replicate (n + 1) r).length = n + 1 := List.length_replicate _ _
    unfold calculateBatchStatistics
    rw [if_neg (by simp)]
    refine ⟨_, rfl, ?_, ?_⟩
    · show ((jsRound ((((List.replicate (n + 1) r).filter
          (fun x => x.status == "deliverable")).length : ℚ) /
          ((List.replicate (n + 1) r).length : ℚ) * 100 * 100) : ℤ) : ℚ) / 100 = 100
      rw [hd, hlen]
      have hne : ((n : ℚ) + 1) ≠ 0 := by positivity
      have : ((n + 1 : Nat) : ℚ) / ((n + 1 : Nat) : ℚ) = 1 := by
        rw [div_self]; push_cast; exact hne
      rw [this]
      have hfl : ⌊(1 : ℚ) * 100 * 100 + 1/2⌋ = (10000 : ℤ) := by
        rw [Int.floor_eq_iff]; norm_num
      rw [jsRound, hfl]
      norm_num
    · show ((List.replicate (n + 1) r).filter (fun x => x.is_safe_to_send)).length = n + 1
      rw [hs, hlen]
  · intro results fs h
    unfold calculateBatchStatistics at h
    by_cases hl : results.length = 0
    · rw [if_pos hl] at h; cases h
    · rw [if_neg hl] at h
      cases h
      exact ⟨rfl, rfl, rfl⟩

/-- C6 witness: the theorem applied to three identical deliverable safe
records and to the same concrete list for the flag-count part. -/
theorem C6_batchStatistics_witness :
    (∃ fs : FullStats,
      calculateBatchStatistics
        (List.replicate (2 + 1) (enrichValidationResult
          ⟨"a@b.com", true, "deliverable", some (1/10), some (9/10)⟩)) = .stats fs ∧
      fs.deliverability_rate = 100 ∧ fs.safe_to_send = 2 + 1) := by
  exact C6_batchStatistics.2.1 2 _ rfl
    (by simp [enrichValidationResult, RISK_THRESHOLDS_MEDIUM]; norm_num)

/-- C8 counterexample: with 10 emails and no SMTP the 30-second floor
binds for every priority, so the estimate is not strictly increasing from
high to normal priority at this email count, refuting the claim's
universally quantified strictness. -/
theorem C8_estimate_counterexample :
    estimateCompletionSeconds 10 "high" false = 30 ∧
    estimateCompletionSeconds 10 "normal" false = 30 ∧
    ¬ estimateCompletionSeconds 10 "high" false < estimateCompletionSeconds 10 "normal" false := by
  have h1 : estimateCompletionSeconds 10 "high" false = 30 := by
    simp [estimateCompletionSeconds, priorityMultiplierOf]
    norm_num
  have h2 : estimateCompletionSeconds 10 "normal" false = 30 := by
    simp [estimateCompletionSeconds, priorityMultiplierOf]
    norm_num
  exact ⟨h1, h2, by rw [h1, h2]; omega⟩

/-- C8 amended: the estimated completion time in seconds equals
max(30, ceil(emailCount * perEmailCost * priorityMultiplier)) with a
larger per-email cost when SMTP checking is requested, and the chain of
estimates is strictly increasing from high to normal to low priority
whenever emailCount * perEmailCost exceeds the 30-second floor; in
particular for 100 emails without SMTP: 120 < 200 < 300. -/
theorem C8_estimate_amended :
    (∀ (c : Nat) (p : String) (smtp : Bool),
      estimateCompletionSeconds c p smtp =
        max 30 ⌈(c : ℚ) * (if smtp then 8 else 2) * priorityMultiplierOf p⌉) ∧
    (∀ (c : Nat) (smtp : Bool), 30 < c * (if smtp then 8 else 2) →
      estimateCompletionSeconds c "high" smtp < estimateCompletionSeconds c "normal" smtp ∧
      estimateCompletionSeconds c "normal" smtp < estimateCompletionSeconds c "low" smtp) ∧
    estimateCompletionSeconds 100 "high" false = 120 ∧
    estimateCompletionSeconds 100 "normal" false = 200 ∧
    estimateCompletionSeconds 100 "low" false = 300 := by
  have key : ∀ (c b : Nat), 30 < c * b →
      max 30 ⌈(c : ℚ) * b * (3/5)⌉ < max (30 : ℤ) ⌈(c : ℚ) * b * 1⌉ ∧
      max (30 : ℤ) ⌈(c : ℚ) * b * 1⌉ < max 30 ⌈(c : ℚ) * b * (3/2)⌉ := by
    intro c b hcb
    have hcb' : (30 : ℚ) < (c : ℚ) * b := by exact_mod_cast hcb
    have hn : ⌈(c : ℚ) * b * 1⌉ = ((c * b : Nat) : ℤ) := by
      rw [mul_one]
      rw [show ((c : ℚ) * b) = ((c * b : Nat) : ℚ) from by push_cast; ring]
      exact Int.ceil_natCast _
    have hcbZ : (30 : ℤ) < ((c * b : Nat) : ℤ) := by exact_mod_cast hcb
    constructor
    · have hnormal : max (30 : ℤ) ⌈(c : ℚ) * b * 1⌉ = ((c * b : Nat) : ℤ) := by
        rw [hn]; exact max_eq_right (le_of_lt hcbZ)
      rw [hnormal]
      refine max_lt hcbZ ?_
      have : ⌈(c : ℚ) * b * (3/5)⌉ ≤ ((c * b : Nat) : ℤ) - 1 := by
        rw [Int.ceil_le]
        push_cast
        linarith
      omega
    · have hnormal : max (30 : ℤ) ⌈(c : ℚ) * b * 1⌉ = ((c * b : Nat) : ℤ) := by
        rw [hn]; exact max_eq_right (le_of_lt hcbZ)
      rw [hnormal]
      have hle : ((c * b : Nat) : ℤ) + 1 ≤ ⌈(c : ℚ) * b * (3/2)⌉ := by
        rw [Int.add_one_le_iff, Int.lt_ceil]
        push_cast
        linarith
      have := le_max_right (30 : ℤ) ⌈(c : ℚ) * b * (3/2)⌉
      omega
  refine ⟨fun c p smtp => rfl, ?_, ?_, ?_, ?_⟩
  · intro c smtp h
    cases smtp with
    | false =>
      have := key c 2 (by simpa using h)
      simpa [estimateCompletionSeconds, priorityMultiplierOf] using this
    | true =>
      have := key c 8 (by simpa using h)
      simpa [estimateCompletionSeconds, priorityMultiplierOf] using this
  · simp [estimateCompletionSeconds, priorityMultiplierOf]
    norm_num
  · simp [estimateCompletionSeconds, priorityMultiplierOf]
    norm_num
  · simp [estimateCompletionSeconds, priorityMultiplierOf]
    norm_num

/-- C8 witness: the strictness part of the amended theorem applied at 100
emails without SMTP, whose count times per-email cost 200 exceeds the
floor. -/
theorem C8_estimate_witness :
    estimateCompletionSeconds 100 "high" false < estimateCompletionSeconds 100 "normal" false ∧
    estimateCompletionSeconds 100 "normal" false < estimateCompletionSeconds 100 "low" false :=
  C8_estimate_amended.2.1 100 false (by norm_num)

/-- C5 counterexample: a response with total_emails and processed both
present but processed equal to 0 and a server progress field of 37.  The
claim demands round(0/100*100) = 0, but the code's truthiness test sends
it down the fallback branch and returns 37. -/
theorem C5_getStatus_counterexample :
    (⟨"processing", some 100, some 0, some 37, none⟩ : BatchJobResponse).total_emails =
      some 100 ∧
    (⟨"processing", some 100, some 0, some 37, none⟩ : BatchJobResponse).processed = some 0 ∧
    (getStatusDescriptor ⟨"processing", some 100, some 0, some 37, none⟩).progress_percent =
      37 ∧
    ((jsRound (((0 : ℚ)) / 100 * 100) : ℤ) : ℚ) = 0 ∧ (37 : ℚ) ≠ 0 := by
  refine ⟨rfl, rfl, ?_, ?_, by norm_num⟩
  · simp [getStatusDescriptor, jsTruthyNum, jsOrNum]
  · have : ((0 : ℚ)) / 100 * 100 + 1/2 = 1/2 := by norm_num
    rw [jsRound, this, show ⌊(1 : ℚ)/2⌋ = (0 : ℤ) from by rw [Int.floor_eq_iff]; norm_num]
    norm_num

/-- C5 amended: getStatus returns a progress_percent equal to
round(processed/total_emails*100) whenever both processed and
total_emails are present and nonzero; otherwise it equals the
server-provided progress field when that is present (a progress of 0 and
a missing progress both give 0); and the convenience flags hold exactly
as claimed: is_completed iff status is completed, is_failed iff failed,
is_processing iff processing or pending, is_cancelled iff cancelled. -/
theorem C5_getStatus_amended (r : BatchJobResponse) :
    (∀ t p : ℚ, r.total_emails = some t → r.processed = some p → t ≠ 0 → p ≠ 0 →
      (getStatusDescriptor r).progress_percent = ((jsRound (p / t * 100) : ℤ) : ℚ)) ∧
    ((jsTruthyNum r.total_emails && jsTruthyNum r.processed) = false →
      (getStatusDescriptor r).progress_percent = jsOrNum r.progress 0) ∧
    ((getStatusDescriptor r).is_completed = true ↔ r.status = "completed") ∧
    ((getStatusDescriptor r).is_failed = true ↔ r.status = "failed") ∧
    ((getStatusDescriptor r).is_processing = true ↔
      (r.status = "processing" ∨ r.status = "pending")) ∧
    ((getStatusDescriptor r).is_cancelled = true ↔ r.status = "cancelled") := by
  refine ⟨?_, ?_, ?_, ?_, ?_, ?_⟩
  · intro t p h1 h2 h3 h4
    simp [getStatusDescriptor, h1, h2, jsTruthyNum, h3, h4]
  · intro h
    simp only [getStatusDescriptor]
    rw [if_neg]
    simp [h]
  · simp [getStatusDescriptor]
  · simp [getStatusDescriptor]
  · simp [getStatusDescriptor]
  · simp [getStatusDescriptor]

/-- C5 witness: the amended theorem applied to a response that is halfway
done (processed 50 of 100), where the rounded formula gives 50, and to a
response with processed 0, where the fallback returns the server progress
37. -/
theorem C5_getStatus_witness :
    (getStatusDescriptor ⟨"processing", some 100, some 50, some 37, none⟩).progress_percent =
      ((jsRound ((50 : ℚ) / 100 * 100) : ℤ) : ℚ) ∧
    (getStatusDescriptor ⟨"processing", some 100, some 0, some 37, none⟩).progress_percent =
      jsOrNum (⟨"processing", some 100, some 0, some 37, none⟩ : BatchJobResponse).progress 0 :=
  ⟨(C5_getStatus_amended ⟨"processing", some 100, some 50, some 37, none⟩).1 100 50 rfl rfl
      (by norm_num) (by norm_num),
    (C5_getStatus_amended ⟨"processing", some 100, some 0, some 37, none⟩).2.1
      (by simp [jsTruthyNum])⟩

/-- C2: for the retried remote call of the validate branch, two 429
failures followed by a success return the successful response after
exactly 3 HTTP attempts with exactly the two backoff sleeps base*2^1 and
base*2^2 milliseconds; a non-429 error on the first attempt is propagated
immediately with no retry and no sleep; and three 429 failures propagate
the last error after 3 attempts. -/
theorem C2_retry_backoff {α : Type} (attempt : Nat → Except HttpErr α) :
    (∀ (r : α) (e0 e1 : HttpErr), e0.statusCode = 429 → e1.statusCode = 429 →
      attempt 0 = .error e0 → attempt 1 = .error e1 → attempt 2 = .ok r →
      validateRetry attempt =
        ⟨.ok r, 3, [RETRY_DELAY_BASE * 2 ^ 1, RETRY_DELAY_BASE * 2 ^ 2]⟩) ∧
    (∀ e : HttpErr, e.statusCode ≠ 429 → attempt 0 = .error e →
      validateRetry attempt = ⟨.err e, 1, []⟩) ∧
    (∀ e0 e1 e2 : HttpErr, e0.statusCode = 429 → e1.statusCode = 429 → e2.statusCode = 429 →
      attempt 0 = .error e0 → attempt 1 = .error e1 → attempt 2 = .error e2 →
      validateRetry attempt =
        ⟨.err e2, 3, [RETRY_DELAY_BASE * 2 ^ 1, RETRY_DELAY_BASE * 2 ^ 2]⟩) := by
  refine ⟨?_, ?_, ?_⟩
  · intro r e0 e1 h0 h1 ha0 ha1 ha2
    unfold validateRetry
    rw [retryLoop]
    simp [ha0, h0, MAX_RETRIES]
    rw [retryLoop]
    simp [ha1, h1, MAX_RETRIES]
    rw [retryLoop]
    simp [ha2, MAX_RETRIES]
  · intro e he ha0
    unfold validateRetry
    rw [retryLoop]
    simp [ha0, he, MAX_RETRIES]
  · intro e0 e1 e2 h0 h1 h2 ha0 ha1 ha2
    unfold validateRetry
    rw [retryLoop]
    simp [ha0, h0, MAX_RETRIES]
    rw [retryLoop]
    simp [ha1, h1, MAX_RETRIES]
    rw [retryLoop]
    simp [ha2, h2, MAX_RETRIES]

/-- C2 witness: the three cases of the theorem applied to concrete attempt
oracles over natural-number response bodies. -/
theorem C2_retry_backoff_witness :
    validateRetry (fun n => if n < 2 then .error ⟨429, "rate limited"⟩ else .ok (7 : Nat)) =
      ⟨.ok 7, 3, [RETRY_DELAY_BASE * 2 ^ 1, RETRY_DELAY_BASE * 2 ^ 2]⟩ ∧
    validateRetry (fun _ => (.error ⟨500, "server error"⟩ : Except HttpErr Nat)) =
      ⟨.err ⟨500, "server error"⟩, 1, []⟩ ∧
    validateRetry (fun _ => (.error ⟨429, "rate limited"⟩ : Except HttpErr Nat)) =
      ⟨.err ⟨429, "rate limited"⟩, 3, [RETRY_DELAY_BASE * 2 ^ 1, RETRY_DELAY_BASE * 2 ^ 2]⟩ :=
  ⟨(C2_retry_backoff _).1 7 ⟨429, "rate limited"⟩ ⟨429, "rate limited"⟩ rfl rfl rfl rfl rfl,
    (C2_retry_backoff _).2.1 ⟨500, "server error"⟩ (by decide) rfl,
    (C2_retry_backoff _).2.2 ⟨429, "rate limited"⟩ ⟨429, "rate limited"⟩ ⟨429, "rate limited"⟩
      rfl rfl rfl rfl rfl rfl⟩

/-- C3: inside the wait loop, while the elapsed time is still below the
deadline, a poll reporting status failed makes the operation fail
immediately with an error carrying the server's reported error message,
after exactly one more poll and no further sleep; a poll reporting
cancelled fails immediately signaling cancellation, also with no further
poll or sleep; neither case returns a success outcome. -/
theorem C3_wait_terminal_failures (poll : Nat → BatchJobResponse)
    (maxWait pollInterval fuel elapsed pollCount sleeps : Nat) (last : String)
    (h : elapsed < maxWait) :
    ((poll pollCount).status = "failed" →
      waitLoop poll maxWait pollInterval (fuel + 1) elapsed pollCount sleeps last =
        ⟨.failedErr ("Batch job failed: " ++ jsOrString (poll pollCount).error "Unknown error"),
          pollCount + 1, sleeps⟩) ∧
    ((poll pollCount).status = "cancelled" →
      waitLoop poll maxWait pollInterval (fuel + 1) elapsed pollCount sleeps last =
        ⟨.cancelledErr, pollCount + 1, sleeps⟩) := by
  constructor <;> intro hs <;> simp [waitLoop, h, hs]

/-- C3 witness: the theorem applied to a poll oracle that reports failed
with the message boom, and to one that reports cancelled, at elapsed time
0 against a 1000 ms deadline. -/
theorem C3_wait_terminal_failures_witness :
    waitLoop (fun _ => ⟨"failed", none, none, none, some "boom"⟩) 1000 500 1 0 0 0 "" =
      ⟨.failedErr ("Batch job failed: " ++
        jsOrString ((fun _ => (⟨"failed", none, none, none, some "boom"⟩ : BatchJobResponse)) 0).error
          "Unknown error"), 1, 0⟩ ∧
    waitLoop (fun _ => ⟨"cancelled", none, none, none, none⟩) 1000 500 1 0 0 0 "" =
      ⟨.cancelledErr, 1, 0⟩ :=
  by
  have h01 : (0 : Nat) < 1000 := by decide
  exact ⟨(C3_wait_terminal_failures (fun _ => ⟨"failed", none, none, none, some "boom"⟩)
      1000 500 0 0 0 0 "" h01).1 rfl,
    (C3_wait_terminal_failures (fun _ => ⟨"cancelled", none, none, none, none⟩)
      1000 500 0 0 0 0 "" h01).2 rfl⟩

/-- C1: with maxWaitSeconds 30 and pollIntervalSeconds 10 and a status
endpoint that reports processing on every poll, waitForCompletion performs
exactly 3 status polls (and 3 sleeps) and terminates with the timeout
error carrying the last observed status processing and the 30000 ms
deadline; in particular it neither succeeds, nor stops earlier, nor loops
forever. -/
theorem C1_wait_timeout_three_polls (poll : Nat → BatchJobResponse)
    (h : ∀ n, (poll n).status = "processing") :
    waitForCompletion poll 30 10 = ⟨.timeoutErr "processing" 30000, 3, 3⟩ := by
  unfold waitForCompletion
  rw [waitLoop_const_processing poll h]
  decide

/-- C1 witness: the theorem applied to the constant processing oracle. -/
theorem C1_wait_timeout_three_polls_witness :
    waitForCompletion (fun _ => ⟨"processing", none, none, none, none⟩) 30 10 =
      ⟨.timeoutErr "processing" 30000, 3, 3⟩ :=
  C1_wait_timeout_three_polls (fun _ => ⟨"processing", none, none, none, none⟩) (fun _ => rfl)

/-- C4: for every input string that parses to more than 10000 valid
emails, createJob fails with the too-many-emails input error before any
HTTP request is made. -/
theorem C4_createJob_async_limit (input : String) (dedup : Option Bool)
    (h : MAX_ASYNC_BATCH < (parseEmails input).length) :
    createJob input dedup = .tooManyError (parseEmails input).length ∧
    createJobHttpCalls (createJob input dedup) = 0 := by
  have h0 : ¬ (parseEmails input).length = 0 := by
    unfold MAX_ASYNC_BATCH at h; omega
  unfold createJob
  rw [if_neg h0, if_pos h]
  exact ⟨rfl, rfl⟩

/-- C4 witness: the theorem applied to the comma-joined list of 10001
copies of the address a@b.com, which parses to 10001 valid emails. -/
theorem C4_createJob_async_limit_witness :
    createJob (String.mk (manyEmailsChars 10001)) none = .tooManyError 10001 ∧
    createJobHttpCalls (createJob (String.mk (manyEmailsChars 10001)) none) = 0 := by
  have hp : parseEmails (String.mk (manyEmailsChars 10001)) = List.replicate 10001 "a@b.com" :=
    parseEmails_manyEmails 10000
  have hlen : (parseEmails (String.mk (manyEmailsChars 10001))).length = 10001 := by
    rw [hp]; exact List.length_replicate _ _
  have h : MAX_ASYNC_BATCH < (parseEmails (String.mk (manyEmailsChars 10001))).length := by
    rw [hlen]; unfold MAX_ASYNC_BATCH; omega
  have := C4_createJob_async_limit (String.mk (manyEmailsChars 10001)) none h
  rwa [hlen] at this

/-- C9: every accepted createJob input yields a descriptor with
total_submitted equal to total_unique plus duplicates_removed and
total_unique at most total_submitted; when deduplication is disabled the
removed count is 0 and total_unique equals total_submitted; and the email
list submitted to the server has exactly total_unique entries. -/
theorem C9_createJob_invariants (input : String) (dedup : Option Bool)
    (emails : List String) (ts tu dr : Nat)
    (h : createJob input dedup = .submitted emails ts tu dr) :
    ts = tu + dr ∧ tu ≤ ts ∧ (dedup = some false → dr = 0 ∧ tu = ts) ∧
    emails.length = tu := by
  unfold createJob at h
  by_cases h0 : (parseEmails input).length = 0
  · rw [if_pos h0] at h; cases h
  · rw [if_neg h0] at h
    by_cases h1 : MAX_ASYNC_BATCH < (parseEmails input).length
    · rw [if_pos h1] at h; cases h
    · rw [if_neg h1] at h
      by_cases hd : dedup = some false
      · rw [if_neg (by simp [hd])] at h
        cases h
        exact ⟨rfl, le_refl _, fun _ => ⟨rfl, rfl⟩, rfl⟩
      · rw [if_pos (by simp [hd])] at h
        cases h
        have hle : (dedupeKeepFirst (parseEmails input) []).length ≤
            (parseEmails input).length := dedupeKeepFirst_length_le _ _
        refine ⟨?_, ?_, fun hc => absurd hc hd, rfl⟩
        · show (parseEmails input).length =
            (dedupeKeepFirst (parseEmails input) []).length +
            ((parseEmails input).length - (dedupeKeepFirst (parseEmails input) []).length)
          omega
        · exact hle

/-- C9 witness: the theorem applied to an input with one duplicate, where
3 submitted emails become 2 unique ones with 1 duplicate removed. -/
theorem C9_createJob_invariants_witness :
    3 = 2 + 1 ∧ 2 ≤ 3 ∧ ((none : Option Bool) = some false → 1 = 0 ∧ 2 = 3) ∧
    (["a@b.com", "c@d.com"] : List String).length = 2 :=
  C9_createJob_invariants "a@b.com,A@b.com , c@d.com" none ["a@b.com", "c@d.com"] 3 2 1
    (by decide)

/-- C10: for every input whose normalized form fails the email syntax
check, quickCheck returns the locally built invalid record without any
HTTP request and without raising an error, while the validate operation
throws an invalid-format error on the same input. -/
theorem C10_quickCheck_local_invalid (input : String)
    (server : String → ValidationResult)
    (attempt : Nat → Except HttpErr ValidationResult)
    (h : emailRegexTest (normalizeEmail input) = false) :
    quickCheck input server =
      .localInvalid ⟨normalizeEmail input, false, "invalid", "Invalid email format", false⟩ ∧
    quickCheckHttpCalls (quickCheck input server) = 0 ∧
    validateSingle input attempt = .invalidFormatError (normalizeEmail input) := by
  unfold quickCheck validateSingle
  rw [if_pos h, if_pos h]
  exact ⟨rfl, rfl, rfl⟩

/-- C10 witness: the theorem applied to the input Not-An-Email, which
fails the syntax check after normalization. -/
theorem C10_quickCheck_local_invalid_witness :
    quickCheck "Not-An-Email" (fun e => ⟨e, true, "deliverable", none, none⟩) =
      .localInvalid ⟨normalizeEmail "Not-An-Email", false, "invalid", "Invalid email format",
        false⟩ ∧
    quickCheckHttpCalls (quickCheck "Not-An-Email" (fun e => ⟨e, true, "deliverable", none, none⟩)) = 0 ∧
    validateSingle "Not-An-Email" (fun _ => .ok ⟨"x@y.com", true, "deliverable", none, none⟩) =
      .invalidFormatError (normalizeEmail "Not-An-Email") :=
  C10_quickCheck_local_invalid "Not-An-Email"
    (fun e => ⟨e, true, "deliverable", none, none⟩)
    (fun _ => .ok ⟨"x@y.com", true, "deliverable", none, none⟩) (by decide)

/-- C7 witness: the boundary facts of the theorem instantiated at the
midpoint score one half, which the medium characterization classifies as
medium. -/
theorem C7_riskLevel_boundaries_witness :
    calculateRiskLevel (1/2) = .medium :=
  ((C7_riskLevel_boundaries (1/2)).2.2.1).mpr
    (by norm_num [RISK_THRESHOLDS_LOW, RISK_THRESHOLDS_HIGH])
